import Mathlib

/-!
Verification of `src/geo_utils.py` (geodata_downloader).

The repository defines three independent functions:

* `is_wkt(text)`          — WKT validator (shapely `loads` under try/except);
* `to_openeo_wkt(aoi)`    — AOI-to-WKT normalizer (dispatch on None / str / Path,
                            geopandas `read_file` + `unary_union.wkt`, wrapping
                            failures in `WKTError`);
* `geojson_to_shapefile`  — GeoJSON-to-Shapefile converter (pathlib destination
                            resolution, `mkdir(parents=True, exist_ok=True)`,
                            `read_file`, optional `set_crs`, `to_file`).

The external collaborators (shapely, geopandas, the filesystem) are modelled as
an abstract library record of effectful operations returning `Except PyErr`;
the Python functions are translated line by line over that record.  Path
arithmetic (`suffix`, `stem`, `with_suffix`, `/`, `parent`) is translated from
CPython's `pathlib` implementation.  Filesystem mutations of the converter are
recorded as an ordered event trace.
-/

/-- Python exception values, as far as this code distinguishes them.
`wktError` models the domain error class `WKTError` imported from
`.exceptions` (module not part of the excerpt).  Modelled from the spec:
a single domain-specific error kind wrapping the original cause.
`valueError` models `ValueError` raised by `pathlib` (e.g. `with_suffix`
on a path with an empty name); `libError` stands for any other exception
raised by the underlying libraries or the OS. -/
inductive PyErr : Type where
  | wktError (cause : PyErr)
  | valueError (msg : String)
  | libError (msg : String)
deriving Repr, DecidableEq

/-- A `pathlib.PurePath` after construction/normalization: the list of its
components (`Path("outdir/")` and `Path("outdir")` both become
`⟨["outdir"]⟩`, `Path(".")` becomes `⟨[]⟩`). -/
structure PyPath : Type where
  parts : List String
deriving Repr, DecidableEq

/-- `pathlib` `.name`: the final component, or `""` when there is none. -/
def PyPath.name (p : PyPath) : String :=
  p.parts.getLast?.getD ""

/-- `pathlib` `.parent`: the path without its final component. -/
def PyPath.parent (p : PyPath) : PyPath :=
  ⟨p.parts.dropLast⟩

/-- `pathlib` `/` with a single-component right operand. -/
def PyPath.join (p : PyPath) (n : String) : PyPath :=
  ⟨p.parts ++ [n]⟩

/-- Index of the last occurrence of a dot in a list of characters
(CPython `str.rfind('.')`, restricted to success as an `Option`). -/
def rfindDot : List Char → Option Nat
  | [] => none
  | c :: cs =>
    match rfindDot cs with
    | some i => some (i + 1)
    | none => if c = '.' then some 0 else none

/-- CPython `PurePath.suffix` of a file name `n`: with `i = n.rfind('.')`,
the slice `n[i:]` when `0 < i < len(n) - 1`, else `""`. -/
def pySuffix (n : String) : String :=
  match rfindDot n.data with
  | none => ""
  | some i => if 0 < i ∧ i + 1 < n.data.length then String.mk (n.data.drop i) else ""

/-- CPython `PurePath.stem` of a file name `n`: the slice `n[:i]` when
`0 < i < len(n) - 1` (with `i = n.rfind('.')`), else `n` itself. -/
def pyStem (n : String) : String :=
  match rfindDot n.data with
  | none => n
  | some i => if 0 < i ∧ i + 1 < n.data.length then String.mk (n.data.take i) else n

/-- Python `str.lower()` (ASCII-faithful). -/
def strLower (s : String) : String :=
  String.mk (s.data.map Char.toLower)

/-- The final four characters of `s`, lowercased, are `".shp"`. -/
def endsWithShpCI (s : String) : Bool :=
  ((s.data.map Char.toLower).reverse.take 4) == ['p', 'h', 's', '.']

/-- CPython `PurePath.with_suffix(suf)` for a valid suffix argument such as
`".shp"`: raises `ValueError` when the name is empty, otherwise replaces
(or appends, when there is none) the suffix of the final component. -/
def withSuffix (p : PyPath) (suf : String) : Except PyErr PyPath :=
  if p.name = "" then
    Except.error (PyErr.valueError "path has an empty name")
  else
    let old := pySuffix p.name
    let newName :=
      if old = "" then p.name ++ suf
      else String.mk (p.name.data.take (p.name.data.length - old.data.length)) ++ suf
    Except.ok ⟨p.parts.dropLast ++ [newName]⟩

/-- The argument of `to_openeo_wkt`: Python `Path | str | None`. -/
inductive AOI : Type where
  | none : AOI
  | str (s : String) : AOI
  | path (p : PyPath) : AOI
deriving Repr, DecidableEq

/-- The geospatial library collaborator used by `is_wkt` and `to_openeo_wkt`:
`α` is the carrier of geopandas `GeoDataFrame` values, `γ` of shapely
geometry objects.  `loads` is `shapely.wkt.loads` (raises on parse failure);
`wkt` is the `.wkt` attribute of a geometry (total on valid geometry
objects); `read_file` is `geopandas.read_file` on a string or `Path`
argument; `unary_union` is the `.unary_union` attribute of a dataframe. -/
structure GeoLib (α γ : Type) : Type where
  loads : String → Except PyErr γ
  wkt : γ → String
  read_file : String ⊕ PyPath → Except PyErr α
  unary_union : α → Except PyErr γ

/-- Translation of `is_wkt` (src/geo_utils.py lines 6-12): try
`loads(text)`, return `True`; on any exception return `False`. -/
def is_wkt {α γ : Type} (L : GeoLib α γ) (text : String) : Bool :=
  match L.loads text with
  | Except.ok _ => true
  | Except.error _ => false

/-- The try-block shared verbatim by both fallback branches of
`to_openeo_wkt`: `gdf = gpd.read_file(aoi); return gdf.unary_union.wkt`,
with any exception `e` re-raised as `WKTError(e)`. -/
def readAndUnionWkt {α γ : Type} (L : GeoLib α γ) (src : String ⊕ PyPath) :
    Except PyErr String :=
  match L.read_file src with
  | Except.error e => Except.error (PyErr.wktError e)
  | Except.ok gdf =>
    match L.unary_union gdf with
    | Except.error e => Except.error (PyErr.wktError e)
    | Except.ok g => Except.ok (L.wkt g)

/-- Translation of `to_openeo_wkt` (src/geo_utils.py lines 14-33). -/
def to_openeo_wkt {α γ : Type} (L : GeoLib α γ) : AOI → Except PyErr (Option String)
  | AOI.none => Except.ok Option.none
  | AOI.str s =>
    if is_wkt L s then Except.ok (some s)
    else Except.map some (readAndUnionWkt L (Sum.inl s))
  | AOI.path p => Except.map some (readAndUnionWkt L (Sum.inr p))

/-- The `force_crs` argument of `geojson_to_shapefile`: Python `str | int`. -/
inductive CRSSpec : Type where
  | str (s : String) : CRSSpec
  | int (n : Int) : CRSSpec
deriving Repr, DecidableEq

/-- A geopandas `GeoDataFrame` as far as the converter inspects it: its
`.crs` attribute (a CRS object, modelled by its label, absent when the
data is unlabeled) and its remaining content of abstract carrier `α`. -/
structure GeoDataFrame (α : Type) : Type where
  crs : Option String
  geoms : α
deriving Repr, DecidableEq

/-- The library collaborator of `geojson_to_shapefile`: `read_file` on a
`Path`, `set_crs` (may raise on an invalid specifier), and `to_file` with
a driver string (may raise on an unwritable destination). -/
structure ConvLib (α : Type) : Type where
  read_file : PyPath → Except PyErr (GeoDataFrame α)
  set_crs : GeoDataFrame α → CRSSpec → Except PyErr (GeoDataFrame α)
  to_file : GeoDataFrame α → PyPath → String → Except PyErr Unit

/-- Filesystem mutations performed by the converter, in order.
`mkdirParents p` is `p.mkdir(parents=True, exist_ok=True)`: create `p` and
all missing ancestors, succeed if already present.  `writeFile p g d` is
the invocation of `g.to_file(p, driver=d)`. -/
inductive FSEvent (α : Type) : Type where
  | mkdirParents (p : PyPath) : FSEvent α
  | writeFile (p : PyPath) (g : GeoDataFrame α) (driver : String) : FSEvent α
deriving Repr, DecidableEq

/-- Destination resolution of `geojson_to_shapefile`
(src/geo_utils.py lines 53-65): `None` → `input.with_suffix(".shp")`;
empty suffix → treat as directory, join with `f"{input.stem}.shp"`;
non-`.shp` suffix (lowercased) → `with_suffix(".shp")`; else as-is. -/
def resolveOutput (input_path : PyPath) (shapefile_path : Option PyPath) :
    Except PyErr PyPath :=
  match shapefile_path with
  | Option.none => withSuffix input_path ".shp"
  | some output_candidate =>
    if strLower (pySuffix output_candidate.name) = "" then
      Except.ok (output_candidate.join (pyStem input_path.name ++ ".shp"))
    else if strLower (pySuffix output_candidate.name) ≠ ".shp" then
      withSuffix output_candidate ".shp"
    else
      Except.ok output_candidate

/-- Translation of `geojson_to_shapefile` (src/geo_utils.py lines 35-78):
resolve the destination, `output_path.parent.mkdir(parents=True,
exist_ok=True)`, read the input, `set_crs` exactly when the dataframe has
no CRS and `force_crs` is not `None`, write with the ESRI Shapefile
driver, return the resolved path.  The second component is the ordered
trace of filesystem mutations performed before the call ended. -/
def geojson_to_shapefile {α : Type} (L : ConvLib α) (geojson_path : PyPath)
    (shapefile_path : Option PyPath) (force_crs : Option CRSSpec) :
    Except PyErr PyPath × List (FSEvent α) :=
  match resolveOutput geojson_path shapefile_path with
  | Except.error e => (Except.error e, [])
  | Except.ok output_path =>
    match L.read_file geojson_path with
    | Except.error e => (Except.error e, [FSEvent.mkdirParents output_path.parent])
    | Except.ok gdf =>
      match
        (match gdf.crs, force_crs with
         | Option.none, some c => L.set_crs gdf c
         | _, _ => Except.ok gdf) with
      | Except.error e => (Except.error e, [FSEvent.mkdirParents output_path.parent])
      | Except.ok gdf2 =>
        match L.to_file gdf2 output_path "ESRI Shapefile" with
        | Except.error e =>
          (Except.error e,
           [FSEvent.mkdirParents output_path.parent,
            FSEvent.writeFile output_path gdf2 "ESRI Shapefile"])
        | Except.ok _ =>
          (Except.ok output_path,
           [FSEvent.mkdirParents output_path.parent,
            FSEvent.writeFile output_path gdf2 "ESRI Shapefile"])

/-- A concrete instance of the geospatial library for evaluating the
theorems at concrete inputs: exactly the string "POINT (1 2)" parses as
WKT, every file read succeeds, and the union's WKT is a fixed polygon. -/
def demoGeoLib : GeoLib Nat Nat where
  loads := fun t =>
    if t = "POINT (1 2)" then Except.ok 0
    else Except.error (PyErr.libError "ParseException")
  wkt := fun _ => "POLYGON ((0 0, 1 0, 1 1, 0 0))"
  read_file := fun _ => Except.ok 5
  unary_union := fun _ => Except.ok 3

/-- A concrete library instance on which every file read fails (as on a
nonexistent path) and nothing parses as WKT. -/
def failGeoLib : GeoLib Nat Nat where
  loads := fun _ => Except.error (PyErr.libError "ParseException")
  wkt := fun _ => ""
  read_file := fun _ => Except.error (PyErr.libError "No such file or directory")
  unary_union := fun _ => Except.error (PyErr.libError "union failed")

/-- Helper: every error produced by the read-and-union block is a
`WKTError` wrapping some cause. -/
theorem readAndUnionWkt_error_shape {α γ : Type} (L : GeoLib α γ)
    (src : String ⊕ PyPath) (e : PyErr)
    (h : readAndUnionWkt L src = Except.error e) : ∃ c, e = PyErr.wktError c := by
  cases hr : L.read_file src with
  | error e2 =>
    have h2 : readAndUnionWkt L src = Except.error (PyErr.wktError e2) := by
      simp [readAndUnionWkt, hr]
    rw [h2] at h
    exact ⟨e2, by cases h; rfl⟩
  | ok gdf =>
    cases hu : L.unary_union gdf with
    | error e2 =>
      have h2 : readAndUnionWkt L src = Except.error (PyErr.wktError e2) := by
        simp [readAndUnionWkt, hr, hu]
      rw [h2] at h
      exact ⟨e2, by cases h; rfl⟩
    | ok g =>
      have h2 : readAndUnionWkt L src = Except.ok (L.wkt g) := by
        simp [readAndUnionWkt, hr, hu]
      rw [h2] at h
      cases h

/-- C3: for every string, `is_wkt` returns `true` exactly when the
library's WKT parse succeeds and `false` exactly when the parse raises;
being a total Boolean function of the parse outcome, it propagates no
exception to its caller. -/
theorem is_wkt_total_parse_check {α γ : Type} (L : GeoLib α γ) (t : String) :
    (is_wkt L t = true ↔ ∃ g, L.loads t = Except.ok g) ∧
    (is_wkt L t = false ↔ ∃ e, L.loads t = Except.error e) := by
  unfold is_wkt
  cases h : L.loads t <;> simp

/-- C1: `to_openeo_wkt` returns `none` immediately on an absent input; on
a string that does not validate as WKT, and on every path object
unconditionally (no WKT check on non-string inputs), it reads the input
as a vector dataset and returns the WKT representation of the union of
all contained geometries — a single string. -/
theorem to_openeo_wkt_dispatch {α γ : Type} (L : GeoLib α γ) :
    to_openeo_wkt L AOI.none = Except.ok Option.none ∧
    (∀ s : String, is_wkt L s = false →
      to_openeo_wkt L (AOI.str s) =
        Except.map some (readAndUnionWkt L (Sum.inl s))) ∧
    (∀ p : PyPath,
      to_openeo_wkt L (AOI.path p) =
        Except.map some (readAndUnionWkt L (Sum.inr p))) ∧
    (∀ (src : String ⊕ PyPath) (gdf : α) (g : γ),
      L.read_file src = Except.ok gdf → L.unary_union gdf = Except.ok g →
      readAndUnionWkt L src = Except.ok (L.wkt g)) := by
  refine ⟨rfl, ?_, fun p => rfl, ?_⟩
  · intro s hs
    simp [to_openeo_wkt, hs]
  · intro src gdf g h1 h2
    simp [readAndUnionWkt, h1, h2]

/-- Evaluation of the dispatch theorem at a concrete non-WKT string. -/
theorem to_openeo_wkt_dispatch_witness :
    to_openeo_wkt demoGeoLib (AOI.str "not a geometry") =
      Except.map some (readAndUnionWkt demoGeoLib (Sum.inl "not a geometry")) ∧
    readAndUnionWkt demoGeoLib (Sum.inl "not a geometry") =
      Except.ok (demoGeoLib.wkt 3) :=
  ⟨(to_openeo_wkt_dispatch demoGeoLib).2.1 "not a geometry" rfl,
   (to_openeo_wkt_dispatch demoGeoLib).2.2.2 (Sum.inl "not a geometry") 5 3 rfl rfl⟩

/-- C2: every error `to_openeo_wkt` raises is a `WKTError`; a failure of
the file read (e.g. a nonexistent path) or of the union computation is
re-raised as `WKTError` wrapping the original cause. -/
theorem to_openeo_wkt_error_wrap {α γ : Type} (L : GeoLib α γ) :
    (∀ (aoi : AOI) (e : PyErr), to_openeo_wkt L aoi = Except.error e →
      ∃ c, e = PyErr.wktError c) ∧
    (∀ (s : String) (e : PyErr), is_wkt L s = false →
      L.read_file (Sum.inl s) = Except.error e →
      to_openeo_wkt L (AOI.str s) = Except.error (PyErr.wktError e)) ∧
    (∀ (p : PyPath) (e : PyErr), L.read_file (Sum.inr p) = Except.error e →
      to_openeo_wkt L (AOI.path p) = Except.error (PyErr.wktError e)) ∧
    (∀ (src : String ⊕ PyPath) (gdf : α) (e : PyErr),
      L.read_file src = Except.ok gdf → L.unary_union gdf = Except.error e →
      readAndUnionWkt L src = Except.error (PyErr.wktError e)) := by
  refine ⟨?_, ?_, ?_, ?_⟩
  · intro aoi e h
    cases aoi with
    | none => cases h
    | str s =>
      by_cases hw : is_wkt L s
      · have h2 : to_openeo_wkt L (AOI.str s) = Except.ok (some s) := by
          simp [to_openeo_wkt, hw]
        rw [h2] at h
        cases h
      · have hw2 : is_wkt L s = false := by simpa using hw
        have h2 : to_openeo_wkt L (AOI.str s) =
            Except.map some (readAndUnionWkt L (Sum.inl s)) := by
          simp [to_openeo_wkt, hw2]
        rw [h2] at h
        cases hr : readAndUnionWkt L (Sum.inl s) with
        | error e2 =>
          rw [hr,
            show Except.map (some : String → Option String) (Except.error e2) =
              Except.error e2 from rfl] at h
          cases h
          exact readAndUnionWkt_error_shape L (Sum.inl s) e hr
        | ok v =>
          rw [hr,
            show Except.map (some : String → Option String) (Except.ok v) =
              Except.ok (some v) from rfl] at h
          cases h
    | path p =>
      have h2 : to_openeo_wkt L (AOI.path p) =
          Except.map some (readAndUnionWkt L (Sum.inr p)) := rfl
      rw [h2] at h
      cases hr : readAndUnionWkt L (Sum.inr p) with
      | error e2 =>
        rw [hr,
          show Except.map (some : String → Option String) (Except.error e2) =
            Except.error e2 from rfl] at h
        cases h
        exact readAndUnionWkt_error_shape L (Sum.inr p) e hr
      | ok v =>
        rw [hr,
          show Except.map (some : String → Option String) (Except.ok v) =
            Except.ok (some v) from rfl] at h
        cases h
  · intro s e hw hr
    simp [to_openeo_wkt, hw, readAndUnionWkt, hr, Except.map]
  · intro p e hr
    simp [to_openeo_wkt, readAndUnionWkt, hr, Except.map]
  · intro src gdf e h1 h2
    simp [readAndUnionWkt, h1, h2]

/-- Evaluation of the wrapping theorem on a nonexistent file path. -/
theorem to_openeo_wkt_error_wrap_witness :
    to_openeo_wkt failGeoLib (AOI.str "/nonexistent/file.geojson") =
      Except.error (PyErr.wktError (PyErr.libError "No such file or directory")) :=
  (to_openeo_wkt_error_wrap failGeoLib).2.1 "/nonexistent/file.geojson"
    (PyErr.libError "No such file or directory") rfl rfl

/-- C4: on a string that validates as WKT, `to_openeo_wkt` is the
identity, and the result does not depend on the library's file-reading or
union operations — no file is read. -/
theorem to_openeo_wkt_identity_on_wkt {α γ : Type} (L : GeoLib α γ) (s : String)
    (h : is_wkt L s = true) :
    to_openeo_wkt L (AOI.str s) = Except.ok (some s) ∧
    (∀ (rf : String ⊕ PyPath → Except PyErr α) (uu : α → Except PyErr γ),
      to_openeo_wkt { L with read_file := rf, unary_union := uu } (AOI.str s) =
        Except.ok (some s)) := by
  constructor
  · simp [to_openeo_wkt, h]
  · intro rf uu
    have h2 : is_wkt { L with read_file := rf, unary_union := uu } s = true := h
    simp [to_openeo_wkt, h2]

/-- Evaluation of the identity theorem at a concrete WKT string. -/
theorem to_openeo_wkt_identity_on_wkt_witness :
    to_openeo_wkt demoGeoLib (AOI.str "POINT (1 2)") =
      Except.ok (some "POINT (1 2)") :=
  (to_openeo_wkt_identity_on_wkt demoGeoLib "POINT (1 2)" rfl).1

/-- String concatenation acts componentwise on the character data. -/
theorem string_data_append (a b : String) : (a ++ b).data = a.data ++ b.data := rfl

/-- Helper: the last dot of `xs ++ ys` sits in `ys` when `ys` has one. -/
theorem rfindDot_append_some (xs ys : List Char) (i : Nat)
    (h : rfindDot ys = some i) : rfindDot (xs ++ ys) = some (xs.length + i) := by
  induction xs with
  | nil => simpa using h
  | cons c cs ih =>
    rw [List.cons_append]
    show (match rfindDot (cs ++ ys) with
      | some j => some (j + 1)
      | none => if c = '.' then some 0 else none) = some ((c :: cs).length + i)
    rw [ih]
    show some (cs.length + i + 1) = some (cs.length + 1 + i)
    rw [Nat.add_right_comm]

/-- Helper: value of `pySuffix` when the last-dot index meets the slice
condition. -/
theorem pySuffix_pos_eq {n : String} {i : Nat} (hd : rfindDot n.data = some i)
    (hc : 0 < i ∧ i + 1 < n.data.length) :
    pySuffix n = String.mk (n.data.drop i) := by
  unfold pySuffix
  rw [hd]
  show (if 0 < i ∧ i + 1 < n.data.length then String.mk (n.data.drop i) else "") =
    String.mk (n.data.drop i)
  rw [if_pos hc]

/-- Helper: `pySuffix` is empty when the slice condition fails. -/
theorem pySuffix_neg_eq {n : String} {i : Nat} (hd : rfindDot n.data = some i)
    (hc : ¬(0 < i ∧ i + 1 < n.data.length)) : pySuffix n = "" := by
  unfold pySuffix
  rw [hd]
  show (if 0 < i ∧ i + 1 < n.data.length then String.mk (n.data.drop i) else "") = ""
  rw [if_neg hc]

/-- Helper: `pySuffix` is empty when the name holds no dot. -/
theorem pySuffix_none_eq {n : String} (hd : rfindDot n.data = none) :
    pySuffix n = "" := by
  unfold pySuffix
  rw [hd]

/-- Helper: value of `pyStem` when the last-dot index meets the slice
condition. -/
theorem pyStem_pos_eq {n : String} {i : Nat} (hd : rfindDot n.data = some i)
    (hc : 0 < i ∧ i + 1 < n.data.length) :
    pyStem n = String.mk (n.data.take i) := by
  unfold pyStem
  rw [hd]
  show (if 0 < i ∧ i + 1 < n.data.length then String.mk (n.data.take i) else n) =
    String.mk (n.data.take i)
  rw [if_pos hc]

/-- Helper: `pyStem` is the whole name when the slice condition fails. -/
theorem pyStem_neg_eq {n : String} {i : Nat} (hd : rfindDot n.data = some i)
    (hc : ¬(0 < i ∧ i + 1 < n.data.length)) : pyStem n = n := by
  unfold pyStem
  rw [hd]
  show (if 0 < i ∧ i + 1 < n.data.length then String.mk (n.data.take i) else n) = n
  rw [if_neg hc]

/-- Helper: `pyStem` is the whole name when the name holds no dot. -/
theorem pyStem_none_eq {n : String} (hd : rfindDot n.data = none) : pyStem n = n := by
  unfold pyStem
  rw [hd]

/-- Helper: appending `".shp"` to a nonempty name yields suffix `".shp"`
and leaves the stem unchanged. -/
theorem pySuffix_pyStem_append_shp (s : String) (hs : s.data ≠ []) :
    pySuffix (s ++ ".shp") = ".shp" ∧ pyStem (s ++ ".shp") = s := by
  have hdata : (s ++ ".shp").data = s.data ++ ['.', 's', 'h', 'p'] :=
    string_data_append s ".shp"
  have hd : rfindDot (s ++ ".shp").data = some s.data.length := by
    have h0 : rfindDot (s.data ++ ['.', 's', 'h', 'p']) = some (s.data.length + 0) :=
      rfindDot_append_some s.data ['.', 's', 'h', 'p'] 0 rfl
    rw [Nat.add_zero] at h0
    rw [hdata]
    exact h0
  have hlen : (s ++ ".shp").data.length = s.data.length + 4 := by
    rw [hdata, List.length_append]
    rfl
  have hpos : 0 < s.data.length := List.length_pos.mpr hs
  have hcond : 0 < s.data.length ∧ s.data.length + 1 < (s ++ ".shp").data.length := by
    constructor
    · exact hpos
    · rw [hlen]
      omega
  constructor
  · rw [pySuffix_pos_eq hd hcond, hdata, List.drop_left]
  · rw [pyStem_pos_eq hd hcond, hdata, List.take_left]

/-- Helper: `endsWithShpCI` holds of every string obtained by appending
`".shp"`. -/
theorem endsWithShpCI_append (x : String) : endsWithShpCI (x ++ ".shp") = true := by
  unfold endsWithShpCI
  rw [string_data_append,
    show (".shp" : String).data = ['.', 's', 'h', 'p'] from rfl,
    List.map_append, List.reverse_append,
    show (['.', 's', 'h', 'p'].map Char.toLower).reverse = ['p', 'h', 's', '.'] from rfl,
    show (4 : Nat) = (['p', 'h', 's', '.'] : List Char).length from rfl,
    List.take_left]
  rfl

/-- Helper: lowercasing gives the empty string only on the empty string. -/
theorem strLower_eq_empty_iff (s : String) : strLower s = "" ↔ s = "" := by
  constructor
  · intro h
    have h2 : s.data.map Char.toLower = [] := congrArg String.data h
    have h3 : s.data = [] := List.map_eq_nil_iff.mp h2
    have h4 : s = String.mk s.data := rfl
    rw [h4, h3]
  · intro h
    rw [h]
    rfl

/-- Helper: a name whose lowercased `pathlib` suffix is `".shp"` already
has its final four characters spelling `".shp"` up to case. -/
theorem endsWithShpCI_of_suffix_lower {n : String}
    (h : strLower (pySuffix n) = ".shp") : endsWithShpCI n = true := by
  cases hd : rfindDot n.data with
  | none =>
    rw [pySuffix_none_eq hd] at h
    exact absurd h (by decide)
  | some i =>
    by_cases hc : 0 < i ∧ i + 1 < n.data.length
    · rw [pySuffix_pos_eq hd hc] at h
      have h2 : (n.data.drop i).map Char.toLower = ['.', 's', 'h', 'p'] :=
        congrArg String.data h
      unfold endsWithShpCI
      rw [show n.data = n.data.take i ++ n.data.drop i from
            (List.take_append_drop i n.data).symm,
        List.map_append, h2, List.reverse_append,
        show (['.', 's', 'h', 'p'] : List Char).reverse = ['p', 'h', 's', '.'] from rfl,
        show (4 : Nat) = (['p', 'h', 's', '.'] : List Char).length from rfl,
        List.take_left]
      rfl
    · rw [pySuffix_neg_eq hd hc] at h
      exact absurd h (by decide)

/-- Helper: a name with empty `pathlib` suffix is its own stem. -/
theorem pyStem_of_suffix_empty {n : String} (h : pySuffix n = "") : pyStem n = n := by
  cases hd : rfindDot n.data with
  | none => exact pyStem_none_eq hd
  | some i =>
    by_cases hc : 0 < i ∧ i + 1 < n.data.length
    · rw [pySuffix_pos_eq hd hc] at h
      have h2 : n.data.drop i = [] := congrArg String.data h
      have h3 : n.data.length ≤ i := List.drop_eq_nil_iff.mp h2
      omega
    · exact pyStem_neg_eq hd hc

/-- Helper: the name built by `with_suffix` is the stem followed by the
new suffix. -/
theorem newName_eq_stem (n : String) :
    (if pySuffix n = "" then n ++ ".shp"
     else String.mk (n.data.take (n.data.length - (pySuffix n).data.length)) ++ ".shp") =
    pyStem n ++ ".shp" := by
  by_cases h : pySuffix n = ""
  · rw [if_pos h, pyStem_of_suffix_empty h]
  · rw [if_neg h]
    cases hd : rfindDot n.data with
    | none => exact absurd (pySuffix_none_eq hd) h
    | some i =>
      by_cases hc : 0 < i ∧ i + 1 < n.data.length
      · rw [pySuffix_pos_eq hd hc, pyStem_pos_eq hd hc,
          show (String.mk (n.data.drop i)).data = n.data.drop i from rfl,
          List.length_drop,
          show n.data.length - (n.data.length - i) = i from by omega]
      · exact absurd (pySuffix_neg_eq hd hc) h

/-- Helper: `with_suffix(".shp")` on a path with a nonempty name replaces
the suffix of the final component with `".shp"`. -/
theorem withSuffix_shp_eq (p : PyPath) (h : p.name ≠ "") :
    withSuffix p ".shp" =
      Except.ok ⟨p.parts.dropLast ++ [pyStem p.name ++ ".shp"]⟩ := by
  simp only [withSuffix, if_neg h]
  rw [newName_eq_stem p.name]

/-- Helper: the name of a path whose parts end in `a` is `a`. -/
theorem pyPath_name_concat (l : List String) (a : String) :
    PyPath.name ⟨l ++ [a]⟩ = a := by
  simp [PyPath.name]

/-- Helper: the parent of a path whose parts end in `a` drops `a`. -/
theorem pyPath_parent_concat (l : List String) (a : String) :
    PyPath.parent ⟨l ++ [a]⟩ = ⟨l⟩ := by
  simp [PyPath.parent]

/-- Helper: a string is empty exactly when its character data is. -/
theorem string_eq_empty_iff (s : String) : s = "" ↔ s.data = [] := by
  constructor
  · intro h
    rw [h]
  · intro h
    have h4 : s = String.mk s.data := rfl
    rw [h4, h]

/-- Helper: the stem of a nonempty name is nonempty. -/
theorem pyStem_data_ne_nil {n : String} (h : n ≠ "") : (pyStem n).data ≠ [] := by
  have hdn : n.data ≠ [] := fun hx => h ((string_eq_empty_iff n).mpr hx)
  cases hd : rfindDot n.data with
  | none =>
    rw [pyStem_none_eq hd]
    exact hdn
  | some i =>
    by_cases hc : 0 < i ∧ i + 1 < n.data.length
    · rw [pyStem_pos_eq hd hc]
      intro hx
      have h2 : n.data.take i = [] := hx
      rcases List.take_eq_nil_iff.mp h2 with h3 | h3
      · omega
      · exact hdn h3
    · rw [pyStem_neg_eq hd hc]
      exact hdn

/-- Helper: the empty name has an empty suffix. -/
theorem pySuffix_empty : pySuffix "" = "" := rfl

/-- C5: `geojson_to_shapefile` resolves its destination by exactly these
cases: no output argument — same parent directory and stem as the input
with the `.shp` extension; output with empty extension — treated as a
directory holding `<input-stem>.shp`; output with a non-`.shp` extension
— extension replaced by `.shp`; output already ending in the `.shp`
extension up to case — used as-is. -/
theorem resolveOutput_cases (input : PyPath) (o : PyPath) :
    (input.name ≠ "" →
      ∃ r : PyPath, resolveOutput input Option.none = Except.ok r ∧
        r.parent = input.parent ∧ r.name = pyStem input.name ++ ".shp" ∧
        pyStem r.name = pyStem input.name ∧ pySuffix r.name = ".shp") ∧
    (pySuffix o.name = "" →
      resolveOutput input (some o) =
        Except.ok (o.join (pyStem input.name ++ ".shp")) ∧
      (o.join (pyStem input.name ++ ".shp")).parent = o ∧
      (o.join (pyStem input.name ++ ".shp")).name = pyStem input.name ++ ".shp") ∧
    (pySuffix o.name ≠ "" → strLower (pySuffix o.name) ≠ ".shp" →
      ∃ r : PyPath, resolveOutput input (some o) = Except.ok r ∧
        r.parent = o.parent ∧ r.name = pyStem o.name ++ ".shp" ∧
        pySuffix r.name = ".shp") ∧
    (strLower (pySuffix o.name) = ".shp" →
      resolveOutput input (some o) = Except.ok o) := by
  refine ⟨?_, ?_, ?_, ?_⟩
  · intro h
    refine ⟨⟨input.parts.dropLast ++ [pyStem input.name ++ ".shp"]⟩, ?_, ?_, ?_, ?_, ?_⟩
    · show withSuffix input ".shp" = _
      exact withSuffix_shp_eq input h
    · exact pyPath_parent_concat input.parts.dropLast _
    · exact pyPath_name_concat input.parts.dropLast _
    · rw [pyPath_name_concat]
      exact (pySuffix_pyStem_append_shp (pyStem input.name) (pyStem_data_ne_nil h)).2
    · rw [pyPath_name_concat]
      exact (pySuffix_pyStem_append_shp (pyStem input.name) (pyStem_data_ne_nil h)).1
  · intro h
    have hcond : strLower (pySuffix o.name) = "" := by
      rw [h]
      rfl
    refine ⟨?_, ?_, ?_⟩
    · simp only [resolveOutput]
      rw [if_pos hcond]
    · rw [show o.join (pyStem input.name ++ ".shp") =
            ⟨o.parts ++ [pyStem input.name ++ ".shp"]⟩ from rfl,
        pyPath_parent_concat]
    · rw [show o.join (pyStem input.name ++ ".shp") =
            ⟨o.parts ++ [pyStem input.name ++ ".shp"]⟩ from rfl,
        pyPath_name_concat]
  · intro h1 h2
    have hcond : ¬strLower (pySuffix o.name) = "" :=
      fun hx => h1 ((strLower_eq_empty_iff (pySuffix o.name)).mp hx)
    have hname : o.name ≠ "" := by
      intro hx
      apply h1
      rw [hx]
      exact pySuffix_empty
    refine ⟨⟨o.parts.dropLast ++ [pyStem o.name ++ ".shp"]⟩, ?_, ?_, ?_, ?_⟩
    · simp only [resolveOutput]
      rw [if_neg hcond, if_pos h2]
      exact withSuffix_shp_eq o hname
    · exact pyPath_parent_concat o.parts.dropLast _
    · exact pyPath_name_concat o.parts.dropLast _
    · rw [pyPath_name_concat]
      exact (pySuffix_pyStem_append_shp (pyStem o.name) (pyStem_data_ne_nil hname)).1
  · intro h
    have hcond : ¬strLower (pySuffix o.name) = "" := by
      intro hx
      rw [hx] at h
      exact absurd h (by decide)
    simp only [resolveOutput]
    rw [if_neg hcond, if_neg (not_not_intro h)]

/-- Evaluation of the resolution cases at the spec's concrete examples. -/
theorem resolveOutput_cases_witness :
    resolveOutput ⟨["data.geojson"]⟩ Option.none = Except.ok ⟨["data.shp"]⟩ ∧
    resolveOutput ⟨["data.geojson"]⟩ (some ⟨["outdir"]⟩) =
      Except.ok ⟨["outdir", "data.shp"]⟩ ∧
    resolveOutput ⟨["data.geojson"]⟩ (some ⟨["out.geojson"]⟩) =
      Except.ok ⟨["out.shp"]⟩ ∧
    resolveOutput ⟨["data.geojson"]⟩ (some ⟨["out.shp"]⟩) =
      Except.ok ⟨["out.shp"]⟩ := by
  refine ⟨?_, ?_, ?_, ?_⟩
  · obtain ⟨r, hr, -, -, -, -⟩ :=
      (resolveOutput_cases ⟨["data.geojson"]⟩ ⟨["data.shp"]⟩).1 (by decide)
    rw [hr]
    have : r = ⟨["data.shp"]⟩ := by
      have h2 := hr
      rw [show resolveOutput ⟨["data.geojson"]⟩ Option.none =
            Except.ok ⟨["data.shp"]⟩ from rfl] at h2
      cases h2
      rfl
    rw [this]
  · rw [((resolveOutput_cases ⟨["data.geojson"]⟩ ⟨["outdir"]⟩).2.1 (by decide)).1]
    rfl
  · obtain ⟨r, hr, -, -, -⟩ :=
      (resolveOutput_cases ⟨["data.geojson"]⟩ ⟨["out.geojson"]⟩).2.2.1
        (by decide) (by decide)
    rw [hr]
    have h2 := hr
    rw [show resolveOutput ⟨["data.geojson"]⟩ (some ⟨["out.geojson"]⟩) =
          Except.ok ⟨["out.shp"]⟩ from rfl] at h2
    cases h2
    rfl
  · exact (resolveOutput_cases ⟨["data.geojson"]⟩ ⟨["out.shp"]⟩).2.2.2 (by decide)

/-- Helper: forward equation for the converter when resolution fails. -/
theorem geojson_to_shapefile_res_error {α : Type} (L : ConvLib α) (gp : PyPath)
    (sp : Option PyPath) (fc : Option CRSSpec) (e : PyErr)
    (hres : resolveOutput gp sp = Except.error e) :
    geojson_to_shapefile L gp sp fc = (Except.error e, []) := by
  simp [geojson_to_shapefile, hres]

/-- Helper: forward equation for the converter when the file read fails:
the directory creation has already been recorded. -/
theorem geojson_to_shapefile_read_error {α : Type} (L : ConvLib α)
    (gp : PyPath) (sp : Option PyPath) (fc : Option CRSSpec) (out : PyPath)
    (e : PyErr) (hres : resolveOutput gp sp = Except.ok out)
    (hread : L.read_file gp = Except.error e) :
    geojson_to_shapefile L gp sp fc =
      (Except.error e, [FSEvent.mkdirParents out.parent]) := by
  simp [geojson_to_shapefile, hres, hread]

/-- Helper: forward equation when the CRS step fails. -/
theorem geojson_to_shapefile_crs_error {α : Type} (L : ConvLib α) (gp : PyPath)
    (sp : Option PyPath) (c : CRSSpec) (out : PyPath) (gdf : GeoDataFrame α)
    (e : PyErr) (hres : resolveOutput gp sp = Except.ok out)
    (hread : L.read_file gp = Except.ok gdf) (hcrs : gdf.crs = Option.none)
    (hset : L.set_crs gdf c = Except.error e) :
    geojson_to_shapefile L gp sp (some c) =
      (Except.error e, [FSEvent.mkdirParents out.parent]) := by
  simp [geojson_to_shapefile, hres, hread, hcrs, hset]

/-- Helper: forward equation after a successful CRS stage: the dataframe
`gdf2` is written and the outcome is that of `to_file`. -/
theorem geojson_to_shapefile_write_stage {α : Type} (L : ConvLib α) (gp : PyPath)
    (sp : Option PyPath) (fc : Option CRSSpec) (out : PyPath)
    (gdf gdf2 : GeoDataFrame α) (hres : resolveOutput gp sp = Except.ok out)
    (hread : L.read_file gp = Except.ok gdf)
    (hstage : (match gdf.crs, fc with
               | Option.none, some c => L.set_crs gdf c
               | _, _ => Except.ok gdf) = Except.ok gdf2) :
    geojson_to_shapefile L gp sp fc =
      ((match L.to_file gdf2 out "ESRI Shapefile" with
        | Except.ok _ => Except.ok out
        | Except.error e => Except.error e),
       [FSEvent.mkdirParents out.parent,
        FSEvent.writeFile out gdf2 "ESRI Shapefile"]) := by
  cases ht : L.to_file gdf2 out "ESRI Shapefile" with
  | ok u => simp [geojson_to_shapefile, hres, hread, hstage, ht]
  | error e => simp [geojson_to_shapefile, hres, hread, hstage, ht]

/-- Helper: forward equation when the CRS stage fails, stated on the
stage expression. -/
theorem geojson_to_shapefile_stage_error {α : Type} (L : ConvLib α) (gp : PyPath)
    (sp : Option PyPath) (fc : Option CRSSpec) (out : PyPath)
    (gdf : GeoDataFrame α) (e : PyErr)
    (hres : resolveOutput gp sp = Except.ok out)
    (hread : L.read_file gp = Except.ok gdf)
    (hstage : (match gdf.crs, fc with
               | Option.none, some c => L.set_crs gdf c
               | _, _ => Except.ok gdf) = Except.error e) :
    geojson_to_shapefile L gp sp fc =
      (Except.error e, [FSEvent.mkdirParents out.parent]) := by
  simp [geojson_to_shapefile, hres, hread, hstage]

/-- Helper: a successful converter run returns exactly the resolved
destination path. -/
theorem geojson_to_shapefile_ok_resolve {α : Type} (L : ConvLib α) (gp : PyPath)
    (sp : Option PyPath) (fc : Option CRSSpec) (q : PyPath)
    (h : (geojson_to_shapefile L gp sp fc).1 = Except.ok q) :
    resolveOutput gp sp = Except.ok q := by
  cases hres : resolveOutput gp sp with
  | error e =>
    rw [geojson_to_shapefile_res_error L gp sp fc e hres] at h
    cases h
  | ok out =>
    cases hread : L.read_file gp with
    | error e =>
      rw [geojson_to_shapefile_read_error L gp sp fc out e hres hread] at h
      cases h
    | ok gdf =>
      cases hstage : (match gdf.crs, fc with
                      | Option.none, some c => L.set_crs gdf c
                      | _, _ => Except.ok gdf) with
      | error e =>
        rw [geojson_to_shapefile_stage_error L gp sp fc out gdf e hres hread hstage]
          at h
        cases h
      | ok gdf2 =>
        rw [geojson_to_shapefile_write_stage L gp sp fc out gdf gdf2 hres hread
          hstage] at h
        cases ht : L.to_file gdf2 out "ESRI Shapefile" with
        | ok u =>
          rw [ht] at h
          cases h
          rfl
        | error e =>
          rw [ht] at h
          cases h

/-- Helper: every successfully resolved destination has a name whose
final four characters spell `.shp` up to letter case. -/
theorem resolveOutput_ends_shp (gp : PyPath) (sp : Option PyPath) (q : PyPath)
    (h : resolveOutput gp sp = Except.ok q) : endsWithShpCI q.name = true := by
  cases sp with
  | none =>
    by_cases hn : gp.name = ""
    · have heq : resolveOutput gp Option.none =
          Except.error (PyErr.valueError "path has an empty name") := by
        simp [resolveOutput, withSuffix, hn]
      rw [heq] at h
      cases h
    · rw [show resolveOutput gp Option.none = withSuffix gp ".shp" from rfl,
        withSuffix_shp_eq gp hn] at h
      cases h
      rw [pyPath_name_concat]
      exact endsWithShpCI_append _
  | some o =>
    by_cases h1 : strLower (pySuffix o.name) = ""
    · have heq : resolveOutput gp (some o) =
          Except.ok (o.join (pyStem gp.name ++ ".shp")) := by
        simp only [resolveOutput]
        rw [if_pos h1]
      rw [heq] at h
      cases h
      rw [show (o.join (pyStem gp.name ++ ".shp")).name =
            PyPath.name ⟨o.parts ++ [pyStem gp.name ++ ".shp"]⟩ from rfl,
        pyPath_name_concat]
      exact endsWithShpCI_append _
    · by_cases h2 : strLower (pySuffix o.name) = ".shp"
      · have heq : resolveOutput gp (some o) = Except.ok o := by
          simp only [resolveOutput]
          rw [if_neg h1, if_neg (not_not_intro h2)]
        rw [heq] at h
        cases h
        exact endsWithShpCI_of_suffix_lower h2
      · have hname : o.name ≠ "" := by
          intro hx
          apply h1
          rw [hx, pySuffix_empty]
          exact rfl
        have heq : resolveOutput gp (some o) = withSuffix o ".shp" := by
          simp only [resolveOutput]
          rw [if_neg h1, if_pos h2]
        rw [heq, withSuffix_shp_eq o hname] at h
        cases h
        rw [pyPath_name_concat]
        exact endsWithShpCI_append _

/-- Helper: destination resolution itself only raises `ValueError`. -/
theorem resolveOutput_error_shape (gp : PyPath) (sp : Option PyPath) (e : PyErr)
    (h : resolveOutput gp sp = Except.error e) :
    ∃ msg : String, e = PyErr.valueError msg := by
  cases sp with
  | none =>
    by_cases hn : gp.name = ""
    · have heq : resolveOutput gp Option.none =
          Except.error (PyErr.valueError "path has an empty name") := by
        simp [resolveOutput, withSuffix, hn]
      rw [heq] at h
      cases h
      exact ⟨"path has an empty name", rfl⟩
    · rw [show resolveOutput gp Option.none = withSuffix gp ".shp" from rfl,
        withSuffix_shp_eq gp hn] at h
      cases h
  | some o =>
    by_cases h1 : strLower (pySuffix o.name) = ""
    · have heq : resolveOutput gp (some o) =
          Except.ok (o.join (pyStem gp.name ++ ".shp")) := by
        simp only [resolveOutput]
        rw [if_pos h1]
      rw [heq] at h
      cases h
    · by_cases h2 : strLower (pySuffix o.name) = ".shp"
      · have heq : resolveOutput gp (some o) = Except.ok o := by
          simp only [resolveOutput]
          rw [if_neg h1, if_neg (not_not_intro h2)]
        rw [heq] at h
        cases h
      · have hname : o.name ≠ "" := by
          intro hx
          apply h1
          rw [hx, pySuffix_empty]
          exact rfl
        have heq : resolveOutput gp (some o) = withSuffix o ".shp" := by
          simp only [resolveOutput]
          rw [if_neg h1, if_pos h2]
        rw [heq, withSuffix_shp_eq o hname] at h
        cases h

/-- A concrete converter library on which every call succeeds and the
read dataset carries no CRS. -/
def demoConvLib : ConvLib Unit where
  read_file := fun _ => Except.ok ⟨Option.none, ()⟩
  set_crs := fun g c =>
    Except.ok { g with crs := some (match c with
      | CRSSpec.str s => s
      | CRSSpec.int n => "EPSG:" ++ toString n) }
  to_file := fun _ _ _ => Except.ok ()

/-- A concrete converter library on which every collaborator call fails
with its own library-native error. -/
def failConvLib : ConvLib Unit where
  read_file := fun _ => Except.error (PyErr.libError "DataSourceError")
  set_crs := fun _ _ => Except.error (PyErr.libError "CRSError")
  to_file := fun _ _ _ => Except.error (PyErr.libError "DriverError")

/-- C6: on every run that resolves a destination, the converter's first
filesystem mutation is the recursive, idempotent creation of the
destination's parent directory (so an absent output directory is
created), and every filesystem mutation of the run is either that
directory creation or the invocation of the shapefile write on the
resolved destination. -/
theorem geojson_to_shapefile_fs_frame {α : Type} (L : ConvLib α) (gp : PyPath)
    (sp : Option PyPath) (fc : Option CRSSpec) (out : PyPath)
    (hres : resolveOutput gp sp = Except.ok out) :
    (geojson_to_shapefile L gp sp fc).2.head? =
      some (FSEvent.mkdirParents out.parent) ∧
    (∀ ev ∈ (geojson_to_shapefile L gp sp fc).2,
      ev = FSEvent.mkdirParents out.parent ∨
      ∃ g : GeoDataFrame α, ev = FSEvent.writeFile out g "ESRI Shapefile") := by
  cases hread : L.read_file gp with
  | error e =>
    rw [geojson_to_shapefile_read_error L gp sp fc out e hres hread]
    refine ⟨rfl, ?_⟩
    intro ev hev
    simp at hev
    exact Or.inl hev
  | ok gdf =>
    cases hstage : (match gdf.crs, fc with
                    | Option.none, some c => L.set_crs gdf c
                    | _, _ => Except.ok gdf) with
    | error e =>
      rw [geojson_to_shapefile_stage_error L gp sp fc out gdf e hres hread hstage]
      refine ⟨rfl, ?_⟩
      intro ev hev
      simp at hev
      exact Or.inl hev
    | ok gdf2 =>
      rw [geojson_to_shapefile_write_stage L gp sp fc out gdf gdf2 hres hread
        hstage]
      refine ⟨rfl, ?_⟩
      intro ev hev
      simp at hev
      rcases hev with hev | hev
      · exact Or.inl hev
      · exact Or.inr ⟨gdf2, hev⟩

/-- Evaluation of the filesystem-frame theorem on a concrete run with a
directory output argument. -/
theorem geojson_to_shapefile_fs_frame_witness :
    (geojson_to_shapefile demoConvLib ⟨["data.geojson"]⟩ (some ⟨["outdir"]⟩)
        Option.none).2.head? =
      some (FSEvent.mkdirParents (PyPath.parent ⟨["outdir", "data.shp"]⟩)) ∧
    (∀ ev ∈ (geojson_to_shapefile demoConvLib ⟨["data.geojson"]⟩
        (some ⟨["outdir"]⟩) Option.none).2,
      ev = FSEvent.mkdirParents (PyPath.parent ⟨["outdir", "data.shp"]⟩) ∨
      ∃ g : GeoDataFrame Unit,
        ev = FSEvent.writeFile ⟨["outdir", "data.shp"]⟩ g "ESRI Shapefile") :=
  geojson_to_shapefile_fs_frame demoConvLib ⟨["data.geojson"]⟩ (some ⟨["outdir"]⟩)
    Option.none ⟨["outdir", "data.shp"]⟩ rfl

/-- C10: destination resolution and the recursive creation of the
destination's parent directories happen before the input file is read, so
when the read fails the call raises while the directory-creation mutation
has already been performed. -/
theorem geojson_to_shapefile_not_atomic {α : Type} (L : ConvLib α)
    (gp : PyPath) (sp : Option PyPath) (fc : Option CRSSpec) (out : PyPath)
    (e : PyErr) (hres : resolveOutput gp sp = Except.ok out)
    (hread : L.read_file gp = Except.error e) :
    geojson_to_shapefile L gp sp fc =
      (Except.error e, [FSEvent.mkdirParents out.parent]) :=
  geojson_to_shapefile_read_error L gp sp fc out e hres hread

/-- Evaluation of the non-atomicity theorem on a failing read: the call
errors but the directory creation already happened. -/
theorem geojson_to_shapefile_not_atomic_witness :
    geojson_to_shapefile failConvLib ⟨["data.geojson"]⟩ (some ⟨["outdir"]⟩)
        Option.none =
      (Except.error (PyErr.libError "DataSourceError"),
       [FSEvent.mkdirParents (PyPath.parent ⟨["outdir", "data.shp"]⟩)]) :=
  geojson_to_shapefile_not_atomic failConvLib ⟨["data.geojson"]⟩
    (some ⟨["outdir"]⟩) Option.none ⟨["outdir", "data.shp"]⟩
    (PyErr.libError "DataSourceError") rfl rfl

/-- C7: the CRS override is assigned exactly when the read dataset
carries no CRS and `force_crs` is non-null; in every other case the
dataframe handed to the shapefile write is the read dataframe itself,
untouched — the function applies no operation to the dataset other than
the optional `set_crs` labelling. -/
theorem geojson_to_shapefile_crs_policy {α : Type} (L : ConvLib α) (gp : PyPath)
    (sp : Option PyPath) (fc : Option CRSSpec) (out : PyPath)
    (gdf : GeoDataFrame α) (hres : resolveOutput gp sp = Except.ok out)
    (hread : L.read_file gp = Except.ok gdf) :
    ((gdf.crs ≠ Option.none ∨ fc = Option.none) →
      geojson_to_shapefile L gp sp fc =
        ((match L.to_file gdf out "ESRI Shapefile" with
          | Except.ok _ => Except.ok out
          | Except.error e => Except.error e),
         [FSEvent.mkdirParents out.parent,
          FSEvent.writeFile out gdf "ESRI Shapefile"])) ∧
    (∀ (c : CRSSpec) (gdf2 : GeoDataFrame α),
      gdf.crs = Option.none → fc = some c → L.set_crs gdf c = Except.ok gdf2 →
      geojson_to_shapefile L gp sp fc =
        ((match L.to_file gdf2 out "ESRI Shapefile" with
          | Except.ok _ => Except.ok out
          | Except.error e => Except.error e),
         [FSEvent.mkdirParents out.parent,
          FSEvent.writeFile out gdf2 "ESRI Shapefile"])) := by
  constructor
  · intro hskip
    have hstage : (match gdf.crs, fc with
                   | Option.none, some c => L.set_crs gdf c
                   | _, _ => Except.ok gdf) = Except.ok gdf := by
      rcases hskip with hcrs | hfc
      · cases hcg : gdf.crs with
        | none => exact absurd hcg hcrs
        | some x =>
          cases fc <;> rfl
      · rw [hfc]
        cases hcg : gdf.crs <;> rfl
    exact geojson_to_shapefile_write_stage L gp sp fc out gdf gdf hres hread hstage
  · intro c gdf2 hcrs hfc hset
    have hstage : (match gdf.crs, fc with
                   | Option.none, some c2 => L.set_crs gdf c2
                   | _, _ => Except.ok gdf) = Except.ok gdf2 := by
      rw [hcrs, hfc]
      exact hset
    exact geojson_to_shapefile_write_stage L gp sp fc out gdf gdf2 hres hread hstage

/-- Evaluation of the CRS policy on a concrete unlabeled dataset with an
override: the written dataframe carries the assigned CRS. -/
theorem geojson_to_shapefile_crs_policy_witness :
    geojson_to_shapefile demoConvLib ⟨["data.geojson"]⟩ Option.none
        (some (CRSSpec.str "EPSG:4326")) =
      (Except.ok ⟨["data.shp"]⟩,
       [FSEvent.mkdirParents (PyPath.parent ⟨["data.shp"]⟩),
        FSEvent.writeFile ⟨["data.shp"]⟩ ⟨some "EPSG:4326", ()⟩
          "ESRI Shapefile"]) :=
  (geojson_to_shapefile_crs_policy demoConvLib ⟨["data.geojson"]⟩ Option.none
      (some (CRSSpec.str "EPSG:4326")) ⟨["data.shp"]⟩ ⟨Option.none, ()⟩ rfl rfl).2
    (CRSSpec.str "EPSG:4326") ⟨some "EPSG:4326", ()⟩ rfl rfl rfl

/-- C9: every path returned by a successful run of `geojson_to_shapefile`
has a final extension spelling `.shp` up to letter case, and an output
argument already carrying a `.shp`-up-to-case extension is returned
as-is, its original casing preserved. -/
theorem geojson_to_shapefile_shp_extension {α : Type} (L : ConvLib α)
    (gp : PyPath) (sp : Option PyPath) (fc : Option CRSSpec) (q : PyPath)
    (h : (geojson_to_shapefile L gp sp fc).1 = Except.ok q) :
    endsWithShpCI q.name = true ∧
    (∀ o : PyPath, sp = some o → strLower (pySuffix o.name) = ".shp" → q = o) := by
  have hres := geojson_to_shapefile_ok_resolve L gp sp fc q h
  constructor
  · exact resolveOutput_ends_shp gp sp q hres
  · intro o hsp hlow
    rw [hsp] at hres
    have h1 : ¬strLower (pySuffix o.name) = "" := by
      intro hx
      rw [hx] at hlow
      exact absurd hlow (by decide)
    have heq : resolveOutput gp (some o) = Except.ok o := by
      simp only [resolveOutput]
      rw [if_neg h1, if_neg (not_not_intro hlow)]
    rw [heq] at hres
    cases hres
    rfl

/-- Evaluation of the extension theorem on an uppercase `.SHP` output. -/
theorem geojson_to_shapefile_shp_extension_witness :
    endsWithShpCI (PyPath.name ⟨["out.SHP"]⟩) = true ∧
    (∀ o : PyPath, (some ⟨["out.SHP"]⟩ : Option PyPath) = some o →
      strLower (pySuffix o.name) = ".shp" → (⟨["out.SHP"]⟩ : PyPath) = o) :=
  geojson_to_shapefile_shp_extension demoConvLib ⟨["data.geojson"]⟩
    (some ⟨["out.SHP"]⟩) Option.none ⟨["out.SHP"]⟩ rfl

/-- C8: the converter performs no error wrapping: an error outcome is
precisely the error raised by the failing step — destination resolution,
the file read, the CRS assignment, or the shapefile write — propagated
unchanged, and resolution itself only raises `ValueError`; a `WKTError`
can therefore surface only when a collaborator call itself returned one. -/
theorem geojson_to_shapefile_no_wrap {α : Type} (L : ConvLib α) (gp : PyPath)
    (sp : Option PyPath) (fc : Option CRSSpec) (e : PyErr)
    (h : (geojson_to_shapefile L gp sp fc).1 = Except.error e) :
    (resolveOutput gp sp = Except.error e ∨
     L.read_file gp = Except.error e ∨
     (∃ (gdf : GeoDataFrame α) (c : CRSSpec), L.read_file gp = Except.ok gdf ∧
       gdf.crs = Option.none ∧ fc = some c ∧ L.set_crs gdf c = Except.error e) ∨
     (∃ (gdf2 : GeoDataFrame α) (out : PyPath),
       resolveOutput gp sp = Except.ok out ∧
       L.to_file gdf2 out "ESRI Shapefile" = Except.error e)) ∧
    (∀ e2 : PyErr, resolveOutput gp sp = Except.error e2 →
      ∃ msg : String, e2 = PyErr.valueError msg) := by
  refine ⟨?_, fun e2 he2 => resolveOutput_error_shape gp sp e2 he2⟩
  cases hres : resolveOutput gp sp with
  | error e3 =>
    rw [geojson_to_shapefile_res_error L gp sp fc e3 hres] at h
    cases h
    exact Or.inl rfl
  | ok out =>
    cases hread : L.read_file gp with
    | error e3 =>
      rw [geojson_to_shapefile_read_error L gp sp fc out e3 hres hread] at h
      cases h
      exact Or.inr (Or.inl rfl)
    | ok gdf =>
      cases hcg : gdf.crs with
      | some x =>
        have hstage : (match gdf.crs, fc with
                       | Option.none, some c => L.set_crs gdf c
                       | _, _ => Except.ok gdf) = Except.ok gdf := by
          rw [hcg]
        rw [geojson_to_shapefile_write_stage L gp sp fc out gdf gdf hres hread
          hstage] at h
        cases ht : L.to_file gdf out "ESRI Shapefile" with
        | ok u =>
          rw [ht] at h
          cases h
        | error e3 =>
          rw [ht] at h
          cases h
          exact Or.inr (Or.inr (Or.inr ⟨gdf, out, rfl, ht⟩))
      | none =>
        cases hfc : fc with
        | none =>
          have hstage : (match gdf.crs, Option.none with
                         | Option.none, some c => L.set_crs gdf c
                         | _, _ => Except.ok gdf) = Except.ok gdf := by
            rw [hcg]
          rw [hfc] at h
          rw [geojson_to_shapefile_write_stage L gp sp Option.none out gdf gdf hres
            hread hstage] at h
          cases ht : L.to_file gdf out "ESRI Shapefile" with
          | ok u =>
            rw [ht] at h
            cases h
          | error e3 =>
            rw [ht] at h
            cases h
            exact Or.inr (Or.inr (Or.inr ⟨gdf, out, rfl, ht⟩))
        | some c =>
          cases hset : L.set_crs gdf c with
          | error e3 =>
            rw [hfc] at h
            rw [geojson_to_shapefile_crs_error L gp sp c out gdf e3 hres hread hcg
              hset] at h
            cases h
            exact Or.inr (Or.inr (Or.inl ⟨gdf, c, rfl, hcg, rfl, hset⟩))
          | ok gdf2 =>
            have hstage : (match gdf.crs, some c with
                           | Option.none, some c2 => L.set_crs gdf c2
                           | _, _ => Except.ok gdf) = Except.ok gdf2 := by
              rw [hcg]
              exact hset
            rw [hfc] at h
            rw [geojson_to_shapefile_write_stage L gp sp (some c) out gdf gdf2 hres
              hread hstage] at h
            cases ht : L.to_file gdf2 out "ESRI Shapefile" with
            | ok u =>
              rw [ht] at h
              cases h
            | error e3 =>
              rw [ht] at h
              cases h
              exact Or.inr (Or.inr (Or.inr ⟨gdf2, out, rfl, ht⟩))

/-- Evaluation of the pass-through theorem on a failing read: the
library-native error surfaces unchanged. -/
theorem geojson_to_shapefile_no_wrap_witness :
    ((resolveOutput ⟨["data.geojson"]⟩ Option.none =
        Except.error (PyErr.libError "DataSourceError") ∨
      failConvLib.read_file ⟨["data.geojson"]⟩ =
        Except.error (PyErr.libError "DataSourceError") ∨
      (∃ (gdf : GeoDataFrame Unit) (c : CRSSpec),
        failConvLib.read_file ⟨["data.geojson"]⟩ = Except.ok gdf ∧
        gdf.crs = Option.none ∧ (Option.none : Option CRSSpec) = some c ∧
        failConvLib.set_crs gdf c =
          Except.error (PyErr.libError "DataSourceError")) ∨
      (∃ (gdf2 : GeoDataFrame Unit) (out : PyPath),
        resolveOutput ⟨["data.geojson"]⟩ Option.none = Except.ok out ∧
        failConvLib.to_file gdf2 out "ESRI Shapefile" =
          Except.error (PyErr.libError "DataSourceError"))) ∧
     (∀ e2 : PyErr,
       resolveOutput ⟨["data.geojson"]⟩ Option.none = Except.error e2 →
       ∃ msg : String, e2 = PyErr.valueError msg)) :=
  geojson_to_shapefile_no_wrap failConvLib ⟨["data.geojson"]⟩ Option.none
    Option.none (PyErr.libError "DataSourceError") rfl
